import Mathlib

/-!
Verification of the S1-Base API intent-routing and tool-dispatch pipeline.

This file gives a shallow embedding of the routing service:
the OpenAI-compatible request handler in `api/main.py`
(model allow-list check, route-classifier call, reply stripping and JSON
parsing, tool-registry lookup, agent invocation, and response aggregation)
and the six backend adapters under `api/solution/`.

External collaborators (the classifier language model, the JSON decoder,
and the agent loop) are modelled as oracle fields of an environment
record; everything the repository itself computes is embedded as an
executable Lean function translated from the Python source.
-/

namespace S1Base

/-! ## Python string primitives

The Python code uses `str.replace`, the `in` substring test, `str.split`
and `str.strip`.  They are embedded here as structurally recursive
functions over character lists so that concrete runs reduce in the
kernel.  All mirror CPython semantics for a non-empty pattern. -/

/-- One step of `str.replace`: replace non-overlapping occurrences of
`pat` left to right.  `fuel` bounds recursion; callers pass the length
of the subject, which suffices because `pat` is non-empty at every call
site in the repository. -/
def pyReplaceAux (pat repl : List Char) : Nat → List Char → List Char
  | _, [] => []
  | 0, s => s
  | fuel + 1, c :: rest =>
    if pat ≠ [] ∧ pat.isPrefixOf (c :: rest) then
      repl ++ pyReplaceAux pat repl fuel ((c :: rest).drop pat.length)
    else
      c :: pyReplaceAux pat repl fuel rest

/-- Python `s.replace(pat, repl)` for non-empty `pat`. -/
def pyReplace (s pat repl : String) : String :=
  String.mk (pyReplaceAux pat.data repl.data s.data.length s.data)

/-- Python `pat in s` (substring containment) for strings. -/
def pySubstr (pat : List Char) : List Char → Bool
  | [] => pat.isPrefixOf []
  | c :: rest => pat.isPrefixOf (c :: rest) || pySubstr pat rest

/-- Python `s.split(sep)` for a non-empty separator, on character lists:
cuts the subject at every non-overlapping occurrence of `sep`. -/
def pySplitAux (sep : List Char) (acc : List Char) : Nat → List Char → List (List Char)
  | _, [] => [acc.reverse]
  | 0, s => [acc.reverse ++ s]
  | fuel + 1, c :: rest =>
    if sep ≠ [] ∧ sep.isPrefixOf (c :: rest) then
      acc.reverse :: pySplitAux sep [] fuel ((c :: rest).drop sep.length)
    else
      pySplitAux sep (c :: acc) fuel rest

/-- Python `s.split(sep)` for strings with non-empty `sep`. -/
def pySplit (s sep : String) : List String :=
  (pySplitAux sep.data [] s.data.length s.data).map String.mk

/-- Python whitespace class used by `str.strip` (ASCII part). -/
def pyIsSpace (c : Char) : Bool :=
  c = ' ' || c = '\t' || c = '\n' || c = '\r' || c = '\x0b' || c = '\x0c'

/-- Python `s.strip()`. -/
def pyStrip (s : String) : String :=
  String.mk (((s.data.dropWhile pyIsSpace).reverse.dropWhile pyIsSpace).reverse)

/-! ## JSON values

`json.loads` returns an arbitrary JSON value; dictionaries keep their
key order.  Numbers are modelled as rationals. -/

/-- A JSON value as produced by the `json` module. -/
inductive Json where
  | null : Json
  | bool (b : Bool) : Json
  | num (q : Rat) : Json
  | str (s : String) : Json
  | arr (elems : List Json) : Json
  | obj (fields : List (String × Json)) : Json

/-- Python `d.get(k)` on a JSON dictionary field list: the value at the
first matching key, if any. -/
def dictGet (fields : List (String × Json)) (k : String) : Option Json :=
  (fields.find? (fun p => p.1 == k)).map (fun p => p.2)

/-- Python `d[k] = v` on a dictionary: overwrite in place when the key
exists, append otherwise. -/
def dictSet (fields : List (String × Json)) (k : String) (v : Json) : List (String × Json) :=
  if fields.any (fun p => p.1 == k) then
    fields.map (fun p => if p.1 == k then (k, v) else p)
  else
    fields ++ [(k, v)]

/-- Python `del d[k]` on a dictionary (no error if repeated keys; removes
all, which coincides with CPython on the single-key dictionaries built
by `json.loads`). -/
def dictDel (fields : List (String × Json)) (k : String) : List (String × Json) :=
  fields.filter (fun p => !(p.1 == k))

/-! ## Wire data model (`api/main.py`, pydantic classes) -/

/-- `Message` (`api/main.py`): one chat message.  The pydantic model
restricts `role` to system, user or assistant at request-parse time;
the embedding carries the role as a string. -/
structure Message where
  role : String
  content : String
deriving DecidableEq, Repr

/-- `ChatCompletionRequest` (`api/main.py`) with the source defaults. -/
structure ChatCompletionRequest where
  model : String
  messages : List Message
  temperature : Rat := 7 / 10
  top_p : Rat := 1
  n : Int := 1
  max_tokens : Int := 512
  stream : Bool := false
  stop : Option (String ⊕ List String) := none
  presence_penalty : Rat := 0
  frequency_penalty : Rat := 0
  logit_bias : Option (List (String × Rat)) := none
  user : Option String := none

/-- `UsageCounters`: the `usage` dictionary of the response, which the
handler builds with exactly the keys completion, prompt and total. -/
structure UsageCounters where
  completion_tokens : Int
  prompt_tokens : Int
  total_tokens : Int
deriving DecidableEq, Repr

/-- `ChatCompletionResponseChoice` (`api/main.py`). -/
structure ChatCompletionResponseChoice where
  index : Int
  message : Message
  finish_reason : String
deriving DecidableEq, Repr

/-- `ChatCompletionResponse` (`api/main.py`). -/
structure ChatCompletionResponse where
  id : String
  object : String := "chat.completion"
  created : Int
  model : String
  choices : List ChatCompletionResponseChoice
  usage : UsageCounters
deriving DecidableEq, Repr

/-! ## Agent-loop messages and outcome

`agent.invoke` (`langgraph` react agent, an external collaborator)
returns a state whose `messages` list mixes the echoed input with the
turns the loop produced.  The handler inspects only whether each entry
is an `AIMessage`, its `content`, and the token-usage figures in its
`response_metadata`; those observables are the fields below. -/

/-- The `token_usage` entry of the `response_metadata` of an `AIMessage`.
Each individual counter may be absent. -/
structure TokenUsage where
  completion_tokens : Option Int := none
  prompt_tokens : Option Int := none
  total_tokens : Option Int := none
deriving DecidableEq, Repr

/-- One entry of the `messages` list of the agent state, restricted to the
observables `api/main.py` reads: the `isinstance(message, AIMessage)`
test, the content, and `response_metadata.get("token_usage")` (absent
when the metadata carries no usage figures). -/
structure AgentMessage where
  isAIMessage : Bool
  content : String
  token_usage : Option TokenUsage := none
deriving DecidableEq, Repr

/-- The names of the six registered backend adapter tools
(`api/solution/`). -/
inductive ToolName where
  | esm3_tool
  | dna_generate_tool
  | alphafold2_tool
  | matter_gen_tool
  | spectrum_predict_tool
  | field_predict_tool
deriving DecidableEq, Repr

/-- Outcome of one `agent.invoke` call.  `messages` is the message
list of the returned state.  `hitStepBound` records whether the loop was forced to
terminate by its maximum step bound (spec 4.2 termination contract of
the agent-loop collaborator); the source aggregation never reads it.
`adapterCalls` lists the backend adapters the loop invoked, in order. -/
structure AgentOutcome where
  messages : List AgentMessage
  hitStepBound : Bool := false
  adapterCalls : List ToolName := []

/-! ## Tool registry (`api/solution/__init__.py`) -/

/-- Modelled from the spec: the registry module imports `ExpertModel`
from a `config` module that is not among the provided sources.  Per the
spec the intents are string labels drawn from the registry key set, the
registry includes a default no-tool sentinel, and section 8 fixes the
protein-structure label as the string "AlphaFold2"; the remaining
member names are taken from `api/solution/__init__.py`. -/
def ExpertModel.DEFAULT : String := "default"

/-- Modelled from the spec: the `ESM3` member of `config.ExpertModel`. -/
def ExpertModel.ESM3 : String := "ESM3"

/-- Modelled from the spec: the `EVO2` member of `config.ExpertModel`. -/
def ExpertModel.EVO2 : String := "EVO2"

/-- Modelled from the spec: the `AlphaFold2` member of
`config.ExpertModel`; section 8 of the spec fixes its label. -/
def ExpertModel.AlphaFold2 : String := "AlphaFold2"

/-- Modelled from the spec: the `MatterGen` member of `config.ExpertModel`. -/
def ExpertModel.MatterGen : String := "MatterGen"

/-- Modelled from the spec: the `SPECTRUM` member of `config.ExpertModel`. -/
def ExpertModel.SPECTRUM : String := "SPECTRUM"

/-- Modelled from the spec: the `FIELD` member of `config.ExpertModel`. -/
def ExpertModel.FIELD : String := "FIELD"

/-- `tool_map` (`api/solution/__init__.py`): the static registry from
intent label to adapter tool; the default sentinel maps to `None`. -/
def tool_map : List (String × Option ToolName) :=
  [ (ExpertModel.DEFAULT, none),
    (ExpertModel.ESM3, some ToolName.esm3_tool),
    (ExpertModel.EVO2, some ToolName.dna_generate_tool),
    (ExpertModel.AlphaFold2, some ToolName.alphafold2_tool),
    (ExpertModel.MatterGen, some ToolName.matter_gen_tool),
    (ExpertModel.SPECTRUM, some ToolName.spectrum_predict_tool),
    (ExpertModel.FIELD, some ToolName.field_predict_tool) ]

/-- Registry membership lookup: `some v` when the label is a key. -/
def tool_map_lookup (k : String) : Option (Option ToolName) :=
  (tool_map.find? (fun p => p.1 == k)).map (fun p => p.2)

/-- `tool_map.get(route.get("intent"))`: a missing key, the `None`
argument, a non-string key, and the sentinel key whose value is `None`
all yield `None`.  (JSON arrays and objects are filtered out before
this call because CPython raises on unhashable keys; see the handler.) -/
def tool_map_get (intent : Option Json) : Option ToolName :=
  match intent with
  | some (Json.str s) => (tool_map_lookup s).bind id
  | _ => none

/-! ## The request handler (`api/main.py`) -/

/-- `AVAILABLE_MODELS` (`api/main.py`). -/
def AVAILABLE_MODELS : List String := ["S1-Base"]

/-- The literal delimiter pair the handler strips from the classifier
reply: an empty reasoning trace. -/
def thinkDelimiter : String := "<think>\n\n</think>\n\n"

/-- Modelled from the spec: `prompt.instruction_template` (the `prompt`
module is not among the provided sources).  Per spec 4.1 it is a fixed
instruction template into which the user message is substituted, asking
the model to reply with structured data containing at least an
`intent` field. -/
def instruction_template_format (user_query : String) : String :=
  "Classify the request and reply only with a JSON object holding at least an intent field. Request: "
    ++ user_query

/-- The `route_input` list: user turns rewritten through the
instruction template, other roles passed through. -/
def route_input (request : ChatCompletionRequest) : List Message :=
  request.messages.map (fun rm =>
    if rm.role = "user" then
      { role := rm.role, content := instruction_template_format rm.content }
    else
      { role := rm.role, content := rm.content })

/-- The `agent_input` list: the request messages forwarded verbatim. -/
def agent_input (request : ChatCompletionRequest) : List Message :=
  request.messages.map (fun m => { role := m.role, content := m.content })

/-- Environment of oracle collaborators for one request: the two
`time.time()` readings, the classifier model reply (`model.invoke`),
the JSON decoder (`json.loads`, `none` when it raises), and the agent
loop (`agent.invoke`). -/
structure Env where
  now_ms : Int
  now_s : Int
  classifierReply : List Message → String
  jsonParse : String → Option Json
  agentResult : List ToolName → List Message → AgentOutcome

/-- The classifier reply after the handler strips the empty
reasoning-trace delimiter pair (`content.replace(...)`). -/
def classifier_content (env : Env) (request : ChatCompletionRequest) : String :=
  pyReplace (env.classifierReply (route_input request)) thinkDelimiter ""

/-- Accumulator of the aggregation loop over the agent messages:
`result_content` and the running `token_usage` dictionary. -/
structure AggState where
  result_content : List String
  token_usage : UsageCounters
deriving DecidableEq, Repr

/-- `response_metadata.get("token_usage", \x7b\x7d).get(key, 0)`:
the reported counter of a message, defaulting to zero. -/
def reportedCount (f : TokenUsage → Option Int) (m : AgentMessage) : Int :=
  ((m.token_usage.bind f).getD 0)

/-- One iteration of the aggregation loop (`api/main.py` lines
119-125): skip everything that is not an `AIMessage`, append the
content, and add the three reported counters. -/
def aggStep (st : AggState) (m : AgentMessage) : AggState :=
  if m.isAIMessage then
    { result_content := st.result_content ++ [m.content],
      token_usage :=
        { total_tokens := st.token_usage.total_tokens + reportedCount TokenUsage.total_tokens m,
          completion_tokens :=
            st.token_usage.completion_tokens + reportedCount TokenUsage.completion_tokens m,
          prompt_tokens :=
            st.token_usage.prompt_tokens + reportedCount TokenUsage.prompt_tokens m } }
  else
    st

/-- The whole aggregation loop, from the empty content list and the
zero counters. -/
def aggregateMessages (msgs : List AgentMessage) : AggState :=
  msgs.foldl aggStep { result_content := [], token_usage := ⟨0, 0, 0⟩ }

/-- The Response Aggregator (`api/main.py` lines 113-139): fold the
agent messages, then build the single-choice response with the
hard-coded finish reason.  It receives the whole agent outcome but
reads only its message list. -/
def response_aggregate (now_ms now_s : Int) (model : String) (outcome : AgentOutcome) :
    ChatCompletionResponse :=
  let agg := aggregateMessages outcome.messages
  { id := "chatcmpl-" ++ toString now_ms,
    created := now_s,
    model := model,
    choices :=
      [ { index := 0,
          message := { role := "assistant", content := String.join agg.result_content },
          finish_reason := "stop" } ],
    usage := agg.token_usage }

/-- How a request terminates when it does not produce a response:
an `HTTPException` raised on purpose, or an uncaught exception that
FastAPI surfaces as a 500 server error. -/
inductive HandlerError where
  | httpException (status : Int) (detail : String)
  | serverError (detail : String)
deriving DecidableEq, Repr

/-- Outbound calls the handler (directly or through the agent loop)
performs, in order. -/
inductive Event where
  | classifierCall (input : List Message)
  | agentCall (tools : List ToolName) (input : List Message)
  | adapterCall (tool : ToolName)
deriving DecidableEq, Repr

/-- Whether an event is a backend adapter invocation. -/
def Event.isAdapterCall : Event → Bool
  | Event.adapterCall _ => true
  | _ => false

/-- Whether an event is an agent-loop invocation. -/
def Event.isAgentCall : Event → Bool
  | Event.agentCall _ _ => true
  | _ => false

/-- Result of one request: the outbound-call trace and either a
response or the error the request raised. -/
structure HandlerOutput where
  trace : List Event
  result : Except HandlerError ChatCompletionResponse

/-- `[tool_map.get(intent)] if tool_map.get(intent) else []`: the list
of tools bound to the agent. -/
def intent_tools (intentVal : Option Json) : List ToolName :=
  match tool_map_get intentVal with
  | some t => [t]
  | none => []

/-- `create_chat_completion` (`api/main.py`): the allow-list check, the
classifier call, the strip-and-parse of its reply, the registry lookup,
the agent call and the aggregation, with every uncaught Python
exception mapped to a 500 server error. -/
def create_chat_completion (env : Env) (request : ChatCompletionRequest) : HandlerOutput :=
  if AVAILABLE_MODELS.contains request.model then
    let rinput := route_input request
    let content := classifier_content env request
    match env.jsonParse content with
    | none =>
      { trace := [Event.classifierCall rinput],
        result := Except.error (HandlerError.serverError "json.loads: invalid JSON") }
    | some route =>
      match route with
      | Json.obj fields =>
        let intentVal := dictGet fields "intent"
        match intentVal with
        | some (Json.arr _) =>
          { trace := [Event.classifierCall rinput],
            result := Except.error (HandlerError.serverError "TypeError: unhashable key") }
        | some (Json.obj _) =>
          { trace := [Event.classifierCall rinput],
            result := Except.error (HandlerError.serverError "TypeError: unhashable key") }
        | _ =>
          let tools := intent_tools intentVal
          let ainput := agent_input request
          let outcome := env.agentResult tools ainput
          { trace :=
              [Event.classifierCall rinput, Event.agentCall tools ainput]
                ++ outcome.adapterCalls.map Event.adapterCall,
            result :=
              Except.ok (response_aggregate env.now_ms env.now_s request.model outcome) }
      | _ =>
        { trace := [Event.classifierCall rinput],
          result := Except.error (HandlerError.serverError "AttributeError: no get method") }
  else
    { trace := [],
      result :=
        Except.error
          (HandlerError.httpException 404 ("Model " ++ request.model ++ " not found")) }

/-! ## Backend adapters (`api/solution/`)

Each adapter performs one outbound HTTP POST and interprets its
outcome.  The network itself is an oracle: `HttpOutcome` covers the
failure modes the spec names (non-2xx status, connection error,
timeout) plus success with a JSON body.  An adapter returns
`Except.ok v` when the Python function returns the value `v` and
`Except.error e` when the Python function lets an exception escape. -/

/-- Outcome of one outbound HTTP request as seen by the adapter. -/
inductive HttpOutcome where
  | success (body : Json)
  | statusError (code : Nat)
  | connectionError
  | timedOut

/-- Whether the HTTP call failed (network or backend failure). -/
def HttpOutcome.isFailure : HttpOutcome → Bool
  | HttpOutcome.success _ => false
  | _ => true

/-- Whether an adapter run raised an exception out of the call. -/
def raisesOut {α : Type} : Except String α → Bool
  | Except.error _ => true
  | Except.ok _ => false

/-- Arguments of `dna_generate` (`api/solution/evo2.py`), with the
source defaults. -/
structure DnaGenerateArgs where
  sequence : String
  num_tokens : Int := 100
  temperature : Rat := 7 / 10
  top_k : Int := 3
  top_p : Rat := 1

/-- `dna_generate` (`api/solution/evo2.py`): on success it adds the
input sequence to the returned dictionary; every request failure is
re-raised as a `ValueError`, so failures escape the call as
exceptions. -/
def dna_generate (args : DnaGenerateArgs) (outcome : HttpOutcome) : Except String Json :=
  match outcome with
  | HttpOutcome.success body =>
    match body with
    | Json.obj fields => Except.ok (Json.obj (dictSet fields "input_sequence" (Json.str args.sequence)))
    | _ => Except.error "TypeError: item assignment"
  | HttpOutcome.statusError code =>
    Except.error ("API request failed: " ++ toString code ++ " - HTTP error occurred")
  | HttpOutcome.connectionError => Except.error "Network error: Request exception occurred"
  | HttpOutcome.timedOut => Except.error "Network error: Request exception occurred"

/-- Arguments of `predict_protein_structure`
(`api/solution/alphaFold2.py`). -/
structure ProteinStructureArgs where
  sequences : List String
  algorithm : String
  skip_template_search : Bool
  bit_score : Rat
  databases : List String
  e_value : Rat
  iterations : Int
  num_predictions_per_model : Int
  relax_prediction : Bool

/-- `predict_protein_structure` (`api/solution/alphaFold2.py`): returns
the JSON body on success and `None` on any request failure; nothing
escapes the call. -/
def predict_protein_structure (args : ProteinStructureArgs) (outcome : HttpOutcome) :
    Except String (Option Json) :=
  match outcome with
  | HttpOutcome.success body => Except.ok (some body)
  | _ => Except.ok none

/-- Arguments of `execute` (`api/solution/esm3.py`), with the source
defaults. -/
structure Esm3Args where
  sequence : String
  left_length : Int := 50
  right_length : Int := 50
  num_steps : Int := 15
  temperature : Rat := 6 / 10

/-- The padded sequence `execute` builds: underscore placeholders on
both sides of the core sequence. -/
def esm3_padded_sequence (args : Esm3Args) : String :=
  String.mk (List.replicate args.left_length.toNat '_')
    ++ args.sequence
    ++ String.mk (List.replicate args.right_length.toNat '_')

/-- `execute` (`api/solution/esm3.py`): returns the JSON body on
success and `None` on any request failure; nothing escapes the call. -/
def execute (args : Esm3Args) (outcome : HttpOutcome) : Except String (Option Json) :=
  match outcome with
  | HttpOutcome.success body => Except.ok (some body)
  | _ => Except.ok none

/-- Python `k in x` for a JSON value, as `matter_gen_function` applies
it to `response_data["data"]`: key test on dictionaries, membership on
arrays, substring test on strings, `TypeError` otherwise. -/
def pyInJson (k : String) (j : Json) : Except String Bool :=
  match j with
  | Json.obj fields => Except.ok (fields.any (fun p => p.1 == k))
  | Json.arr elems =>
    Except.ok (elems.any (fun e => match e with | Json.str s => s == k | _ => false))
  | Json.str s => Except.ok (pySubstr k.data s.data)
  | _ => Except.error "TypeError: argument not iterable"

/-- The response clean-up of `matter_gen_function`: drop
`data.generation_time` when both keys are present. -/
def matterGenCleanup (body : Json) : Except String Json :=
  match body with
  | Json.obj fields =>
    match dictGet fields "data" with
    | some dataVal => do
      let hasTime ← pyInJson "generation_time" dataVal
      if hasTime then
        match dataVal with
        | Json.obj dataFields =>
          Except.ok (Json.obj (dictSet fields "data" (Json.obj (dictDel dataFields "generation_time"))))
        | _ => Except.error "TypeError: item deletion"
      else
        Except.ok (Json.obj fields)
    | none => Except.ok (Json.obj fields)
  | _ => Except.ok body

/-- A JSON dictionary with a single `error` entry, as the adapters
build on failure. -/
def errorObj (msg : String) : Json :=
  Json.obj [("error", Json.str msg)]

/-- `matter_gen_function` (`api/solution/matterGen.py`): success body
cleaned of its generation time; every failure, and even an exception
in the clean-up, is caught and returned as an error dictionary, so
nothing escapes the call. -/
def matter_gen_function (batch_size num_batches : Int) (props : Option Json)
    (outcome : HttpOutcome) : Except String Json :=
  match outcome with
  | HttpOutcome.success body =>
    match matterGenCleanup body with
    | Except.ok cleaned => Except.ok cleaned
    | Except.error e => Except.ok (errorObj ("Processing error: " ++ e))
  | HttpOutcome.statusError code =>
    Except.ok (errorObj ("HTTP request error: status " ++ toString code))
  | HttpOutcome.connectionError => Except.ok (errorObj "Request exception: connection error")
  | HttpOutcome.timedOut => Except.ok (errorObj "Request exception: timed out")

/-- The extraction
`result_json.get("choices", [\x7b\x7d])[0].get("message", \x7b\x7d).get("content", "")`
of `spectrum_predict`; `Except.error` marks the places where CPython
raises on an unexpectedly shaped value. -/
def spectrumExtractContent (body : Json) : Except String Json :=
  match body with
  | Json.obj fields =>
    match (dictGet fields "choices").getD (Json.arr [Json.obj []]) with
    | Json.arr elems =>
      match elems.head? with
      | none => Except.error "IndexError: list index out of range"
      | some first =>
        match first with
        | Json.obj ffields =>
          match (dictGet ffields "message").getD (Json.obj []) with
          | Json.obj mfields => Except.ok ((dictGet mfields "content").getD (Json.str ""))
          | _ => Except.error "AttributeError: no get method"
        | _ => Except.error "AttributeError: no get method"
    | _ => Except.error "TypeError: not subscriptable"
  | _ => Except.error "AttributeError: no get method"

/-- `spectrum_predict` (`api/solution/spectrum.py`): on success extract
the reply content and the SMILES string after the marker; every
failure, including exceptions while digging into the body, is caught
and returned as an error dictionary, so nothing escapes the call. -/
def spectrum_predict (query : String) (outcome : HttpOutcome) : Except String Json :=
  match outcome with
  | HttpOutcome.success body =>
    match spectrumExtractContent body with
    | Except.error e => Except.ok (errorObj ("Processing error: " ++ e))
    | Except.ok contentVal =>
      match contentVal with
      | Json.str content =>
        let smiles :=
          if pySubstr "##SMILES:".data content.data then
            pyStrip ((pySplit content "##SMILES:").getD 1 "")
          else
            ""
        Except.ok (Json.obj [("content", Json.str content), ("smiles", Json.str smiles)])
      | _ => Except.ok (errorObj "Processing error: TypeError: not a string")
  | HttpOutcome.statusError code =>
    Except.ok (errorObj ("HTTP request failed: status " ++ toString code))
  | HttpOutcome.connectionError => Except.ok (errorObj "HTTP request failed: connection error")
  | HttpOutcome.timedOut => Except.ok (errorObj "HTTP request failed: timed out")

/-- Outcome of `encode_geometry_from_url` inside `mechanics_calculate`
(`api/solution/field.py`): the encoded geometry or the message of the
`RuntimeError` it raised. -/
inductive GeometryResult where
  | encoded (b64 : String) (rows : Nat)
  | failed (msg : String)

/-- `mechanics_calculate` (`api/solution/field.py`): geometry-encoding
failures and every request failure are caught (`HTTPStatusError`
specially, everything else generically) and returned as an error
dictionary, so nothing escapes the call. -/
def mechanics_calculate (matrix_url : String) (velocity wind : List (String × Rat))
    (geo : GeometryResult) (outcome : HttpOutcome) : Except String Json :=
  match geo with
  | GeometryResult.failed msg => Except.ok (errorObj ("An error occurred: " ++ msg))
  | GeometryResult.encoded _ _ =>
    match outcome with
    | HttpOutcome.success body => Except.ok body
    | HttpOutcome.statusError code => Except.ok (errorObj ("HTTP error: " ++ toString code))
    | HttpOutcome.connectionError => Except.ok (errorObj "An error occurred: connection error")
    | HttpOutcome.timedOut => Except.ok (errorObj "An error occurred: timed out")

/-! ## Timeouts passed to the outbound calls

Embedded from the HTTP call site of each adapter: `some t` when the call
passes an explicit timeout of `t` seconds, `none` when the call passes
no timeout at all (the `requests` library then waits forever). -/

/-- `requests.post` in `dna_generate` (`api/solution/evo2.py` line 67)
passes no timeout argument. -/
def evo2_request_timeout : Option Nat := none

/-- `requests.post` in `predict_protein_structure`
(`api/solution/alphaFold2.py`) passes `timeout=300`. -/
def alphafold2_request_timeout : Option Nat := some 300

/-- `requests.post` in `execute` (`api/solution/esm3.py`) passes
`timeout=300`. -/
def esm3_request_timeout : Option Nat := some 300

/-- `requests.post` in `matter_gen_function`
(`api/solution/matterGen.py` line 34) passes no timeout argument. -/
def mattergen_request_timeout : Option Nat := none

/-- `requests.post` in `spectrum_predict`
(`api/solution/spectrum.py` line 48) passes no timeout argument. -/
def spectrum_request_timeout : Option Nat := none

/-- `httpx.Client(timeout=6000)` in `mechanics_calculate`
(`api/solution/field.py`). -/
def field_request_timeout : Option Nat := some 6000

/-- The outbound-call timeouts of all six adapters, by source function. -/
def adapter_request_timeouts : List (String × Option Nat) :=
  [ ("dna_generate", evo2_request_timeout),
    ("predict_protein_structure", alphafold2_request_timeout),
    ("execute", esm3_request_timeout),
    ("matter_gen_function", mattergen_request_timeout),
    ("spectrum_predict", spectrum_request_timeout),
    ("mechanics_calculate", field_request_timeout) ]

/-! ## Sample inputs used by witnesses and counterexamples -/

/-- A well-formed assistant turn with full usage figures. -/
def sampleUsageMsg : AgentMessage :=
  { isAIMessage := true, content := "done",
    token_usage := some { completion_tokens := some 5, prompt_tokens := some 7, total_tokens := some 12 } }

/-- A normally terminated agent run with one assistant turn. -/
def sampleOutcome : AgentOutcome := { messages := [sampleUsageMsg] }

/-- An agent run forced to stop by the step bound, with a pending
partial assistant message (spec 4.2 termination contract). -/
def stepBoundOutcome : AgentOutcome :=
  { messages := [ { isAIMessage := true, content := "partial", token_usage := none } ],
    hitStepBound := true }

/-- An environment whose JSON decoder always yields `j` and whose agent
loop always yields `sampleOutcome`. -/
def envRoute (j : Option Json) : Env :=
  { now_ms := 1, now_s := 1,
    classifierReply := fun _ => "reply",
    jsonParse := fun _ => j,
    agentResult := fun _ _ => sampleOutcome }

/-- A minimal valid request. -/
def sampleRequest : ChatCompletionRequest :=
  { model := "S1-Base", messages := [ { role := "user", content := "hello" } ] }

/-! ## Handler branch lemmas -/

/-- Rejection branch: an unlisted model id short-circuits the handler. -/
theorem handler_model_reject (env : Env) (req : ChatCompletionRequest)
    (hm : AVAILABLE_MODELS.contains req.model = false) :
    create_chat_completion env req =
      { trace := [],
        result :=
          Except.error (HandlerError.httpException 404 ("Model " ++ req.model ++ " not found")) } := by
  simp only [create_chat_completion, hm, Bool.false_eq_true, if_false]

/-- Parse-failure branch: the classifier reply does not decode. -/
theorem handler_parse_fail (env : Env) (req : ChatCompletionRequest)
    (hm : AVAILABLE_MODELS.contains req.model = true)
    (hp : env.jsonParse (classifier_content env req) = none) :
    create_chat_completion env req =
      { trace := [Event.classifierCall (route_input req)],
        result := Except.error (HandlerError.serverError "json.loads: invalid JSON") } := by
  simp only [create_chat_completion, hm, if_true, hp]

/-- Non-dictionary branch: the classifier reply decodes, but to a value
with no `get` method. -/
theorem handler_nonobj (env : Env) (req : ChatCompletionRequest) (j : Json)
    (hm : AVAILABLE_MODELS.contains req.model = true)
    (hp : env.jsonParse (classifier_content env req) = some j)
    (hj : ∀ fields, j ≠ Json.obj fields) :
    create_chat_completion env req =
      { trace := [Event.classifierCall (route_input req)],
        result := Except.error (HandlerError.serverError "AttributeError: no get method") } := by
  cases j with
  | obj fields => exact absurd rfl (hj fields)
  | null => simp only [create_chat_completion, hm, if_true, hp]
  | bool b => simp only [create_chat_completion, hm, if_true, hp]
  | num q => simp only [create_chat_completion, hm, if_true, hp]
  | str s => simp only [create_chat_completion, hm, if_true, hp]
  | arr xs => simp only [create_chat_completion, hm, if_true, hp]

/-- Dispatch branch: the classifier reply decodes to a dictionary whose
`intent` entry (if any) is a hashable non-container value, so the
registry lookup runs and the agent is invoked. -/
theorem handler_dispatch (env : Env) (req : ChatCompletionRequest)
    (fields : List (String × Json))
    (hm : AVAILABLE_MODELS.contains req.model = true)
    (hp : env.jsonParse (classifier_content env req) = some (Json.obj fields))
    (hsafe : ∀ j, dictGet fields "intent" = some j →
      (∀ xs, j ≠ Json.arr xs) ∧ (∀ fs, j ≠ Json.obj fs)) :
    create_chat_completion env req =
      { trace :=
          [Event.classifierCall (route_input req),
           Event.agentCall (intent_tools (dictGet fields "intent")) (agent_input req)]
            ++ (env.agentResult (intent_tools (dictGet fields "intent"))
                  (agent_input req)).adapterCalls.map Event.adapterCall,
        result :=
          Except.ok
            (response_aggregate env.now_ms env.now_s req.model
              (env.agentResult (intent_tools (dictGet fields "intent")) (agent_input req))) } := by
  cases hi : dictGet fields "intent" with
  | none => simp only [create_chat_completion, hm, if_true, hp, hi]
  | some j =>
    cases j with
    | arr xs => exact absurd rfl ((hsafe _ hi).1 xs)
    | obj fs => exact absurd rfl ((hsafe _ hi).2 fs)
    | null => simp only [create_chat_completion, hm, if_true, hp, hi]
    | bool b => simp only [create_chat_completion, hm, if_true, hp, hi]
    | num q => simp only [create_chat_completion, hm, if_true, hp, hi]
    | str s => simp only [create_chat_completion, hm, if_true, hp, hi]

/-- Inversion: the only way the handler returns a response is through
the dispatch branch, so every returned response is an aggregation of
some agent outcome. -/
theorem handler_ok_inv (env : Env) (req : ChatCompletionRequest)
    (resp : ChatCompletionResponse)
    (h : (create_chat_completion env req).result = Except.ok resp) :
    ∃ outcome, resp = response_aggregate env.now_ms env.now_s req.model outcome := by
  by_cases hm : AVAILABLE_MODELS.contains req.model = true
  · cases hp : env.jsonParse (classifier_content env req) with
    | none => rw [handler_parse_fail env req hm hp] at h; exact absurd h (by simp)
    | some route =>
      cases route with
      | obj fields =>
        cases hi : dictGet fields "intent" with
        | none =>
          rw [handler_dispatch env req fields hm hp (by intro j hj; rw [hi] at hj; exact absurd hj (by simp))] at h
          exact ⟨_, (Except.ok.inj h).symm⟩
        | some j =>
          cases j with
          | arr xs =>
            simp only [create_chat_completion, hm, if_true, hp, hi] at h
            exact absurd h (by simp)
          | obj fs =>
            simp only [create_chat_completion, hm, if_true, hp, hi] at h
            exact absurd h (by simp)
          | null =>
            simp only [create_chat_completion, hm, if_true, hp, hi] at h
            exact ⟨_, (Except.ok.inj h).symm⟩
          | bool b =>
            simp only [create_chat_completion, hm, if_true, hp, hi] at h
            exact ⟨_, (Except.ok.inj h).symm⟩
          | num q =>
            simp only [create_chat_completion, hm, if_true, hp, hi] at h
            exact ⟨_, (Except.ok.inj h).symm⟩
          | str s =>
            simp only [create_chat_completion, hm, if_true, hp, hi] at h
            exact ⟨_, (Except.ok.inj h).symm⟩
      | null =>
        rw [handler_nonobj env req _ hm hp (by simp)] at h; exact absurd h (by simp)
      | bool b =>
        rw [handler_nonobj env req _ hm hp (by simp)] at h; exact absurd h (by simp)
      | num q =>
        rw [handler_nonobj env req _ hm hp (by simp)] at h; exact absurd h (by simp)
      | str s =>
        rw [handler_nonobj env req _ hm hp (by simp)] at h; exact absurd h (by simp)
      | arr xs =>
        rw [handler_nonobj env req _ hm hp (by simp)] at h; exact absurd h (by simp)
  · rw [handler_model_reject env req (by simpa using hm)] at h
    exact absurd h (by simp)

/-- Under the hypotheses of claims four and eight (intent missing,
unregistered, or the sentinel) the registry lookup yields no tool. -/
theorem intent_tools_empty (v : Option Json)
    (hv : v = none ∨ ∃ s, v = some (Json.str s) ∧
      (tool_map_lookup s = none ∨ s = ExpertModel.DEFAULT)) :
    intent_tools v = [] := by
  rcases hv with hv | ⟨s, hv, hs⟩
  · subst hv; rfl
  · subst hv
    rcases hs with hs | hs
    · simp [intent_tools, tool_map_get, hs]
    · subst hs; rfl

/-! ## Claims -/

/-- C3. For every inbound request whose model field is not a member of
the static allow-list, `create_chat_completion` returns a client-error
response (HTTP 4xx) and makes no classifier call and no backend adapter
call. -/
theorem unknown_model_client_error (env : Env) (req : ChatCompletionRequest)
    (hm : req.model ∉ AVAILABLE_MODELS) :
    (∃ status detail,
        (create_chat_completion env req).result =
          Except.error (HandlerError.httpException status detail) ∧
        400 ≤ status ∧ status < 500) ∧
    (create_chat_completion env req).trace = [] := by
  have hm' : AVAILABLE_MODELS.contains req.model = false := by
    simp [List.contains]
    exact hm
  rw [handler_model_reject env req hm']
  exact ⟨⟨404, "Model " ++ req.model ++ " not found", rfl, by norm_num, by norm_num⟩, rfl⟩

/-- Witness for C3 at a concrete unlisted model id. -/
theorem unknown_model_client_error_witness :
    ("gpt-4" ∉ AVAILABLE_MODELS) ∧
    ((∃ status detail,
        (create_chat_completion (envRoute none) { model := "gpt-4", messages := [] }).result =
          Except.error (HandlerError.httpException status detail) ∧
        400 ≤ status ∧ status < 500) ∧
      (create_chat_completion (envRoute none) { model := "gpt-4", messages := [] }).trace = []) :=
  ⟨by decide, unknown_model_client_error (envRoute none) { model := "gpt-4", messages := [] }
    (by decide)⟩

/-- C2. For every request whose classifier reply, after stripping the
optional empty reasoning-trace delimiter pair, is not valid structured
data, the request fails with a server error, no default intent is
substituted, and no backend adapter (and no agent) is invoked. -/
theorem parse_failure_server_error (env : Env) (req : ChatCompletionRequest)
    (hm : req.model ∈ AVAILABLE_MODELS)
    (hp : env.jsonParse (classifier_content env req) = none ∨
      ∃ j, env.jsonParse (classifier_content env req) = some j ∧
        ∀ fields, j ≠ Json.obj fields) :
    (∃ d, (create_chat_completion env req).result =
        Except.error (HandlerError.serverError d)) ∧
    ∀ e ∈ (create_chat_completion env req).trace,
      e.isAdapterCall = false ∧ e.isAgentCall = false := by
  have hm' : AVAILABLE_MODELS.contains req.model = true := by
    simp [List.contains]
    exact hm
  rcases hp with hp | ⟨j, hp, hj⟩
  · rw [handler_parse_fail env req hm' hp]
    refine ⟨⟨_, rfl⟩, ?_⟩
    intro e he
    simp only [List.mem_singleton] at he
    subst he
    exact ⟨rfl, rfl⟩
  · rw [handler_nonobj env req j hm' hp hj]
    refine ⟨⟨_, rfl⟩, ?_⟩
    intro e he
    simp only [List.mem_singleton] at he
    subst he
    exact ⟨rfl, rfl⟩

/-- Witness for C2: a classifier reply that does not decode. -/
theorem parse_failure_server_error_witness :
    ("S1-Base" ∈ AVAILABLE_MODELS) ∧
    ((envRoute none).jsonParse (classifier_content (envRoute none) sampleRequest) = none) ∧
    ((∃ d, (create_chat_completion (envRoute none) sampleRequest).result =
        Except.error (HandlerError.serverError d)) ∧
      ∀ e ∈ (create_chat_completion (envRoute none) sampleRequest).trace,
        e.isAdapterCall = false ∧ e.isAgentCall = false) :=
  ⟨by decide, rfl,
    parse_failure_server_error (envRoute none) sampleRequest (by decide) (Or.inl rfl)⟩

/-- C4. For every request whose classified intent is the no-tool
sentinel or is absent from the Tool Registry, the agent is constructed
with zero tools bound, the request does not fail, and the response is
well-formed with exactly one choice. -/
theorem unregistered_intent_zero_tools (env : Env) (req : ChatCompletionRequest)
    (fields : List (String × Json))
    (hm : req.model ∈ AVAILABLE_MODELS)
    (hp : env.jsonParse (classifier_content env req) = some (Json.obj fields))
    (hi : dictGet fields "intent" = none ∨
      ∃ s, dictGet fields "intent" = some (Json.str s) ∧
        (tool_map_lookup s = none ∨ s = ExpertModel.DEFAULT)) :
    Event.agentCall [] (agent_input req) ∈ (create_chat_completion env req).trace ∧
    ∃ resp, (create_chat_completion env req).result = Except.ok resp ∧
      resp.choices.length = 1 ∧ resp.object = "chat.completion" := by
  have hm' : AVAILABLE_MODELS.contains req.model = true := by
    simp [List.contains]
    exact hm
  have hsafe : ∀ j, dictGet fields "intent" = some j →
      (∀ xs, j ≠ Json.arr xs) ∧ (∀ fs, j ≠ Json.obj fs) := by
    intro j hj
    rcases hi with hi | ⟨s, hi, _⟩ <;> rw [hi] at hj
    · exact absurd hj (by simp)
    · cases hj; exact ⟨by simp, by simp⟩
  have htools : intent_tools (dictGet fields "intent") = [] := intent_tools_empty _ hi
  rw [handler_dispatch env req fields hm' hp hsafe, htools]
  exact ⟨by simp, _, rfl, rfl, rfl⟩

/-- Witness for C4: the classifier answers with an intent label that is
not a registry key. -/
theorem unregistered_intent_zero_tools_witness :
    ("S1-Base" ∈ AVAILABLE_MODELS) ∧
    (tool_map_lookup "unknown_tool_xyz" = none) ∧
    (Event.agentCall [] (agent_input sampleRequest) ∈
        (create_chat_completion
          (envRoute (some (Json.obj [("intent", Json.str "unknown_tool_xyz")]))) sampleRequest).trace ∧
      ∃ resp,
        (create_chat_completion
          (envRoute (some (Json.obj [("intent", Json.str "unknown_tool_xyz")]))) sampleRequest).result =
            Except.ok resp ∧
        resp.choices.length = 1 ∧ resp.object = "chat.completion") :=
  ⟨by decide, by decide,
    unregistered_intent_zero_tools
      (envRoute (some (Json.obj [("intent", Json.str "unknown_tool_xyz")]))) sampleRequest
      [("intent", Json.str "unknown_tool_xyz")] (by decide) rfl
      (Or.inr ⟨"unknown_tool_xyz", rfl, Or.inl (by decide)⟩)⟩

/-- C8. If the classifier reply parses to a structured object that
lacks an `intent` field entirely, the request does not error: the
registry lookup yields no tool and the agent runs with zero tools
bound, exactly as for an unregistered intent. -/
theorem missing_intent_field_no_error (env : Env) (req : ChatCompletionRequest)
    (fields : List (String × Json))
    (hm : req.model ∈ AVAILABLE_MODELS)
    (hp : env.jsonParse (classifier_content env req) = some (Json.obj fields))
    (hi : dictGet fields "intent" = none) :
    tool_map_get (dictGet fields "intent") = none ∧
    Event.agentCall [] (agent_input req) ∈ (create_chat_completion env req).trace ∧
    ∃ resp, (create_chat_completion env req).result = Except.ok resp := by
  have hm' : AVAILABLE_MODELS.contains req.model = true := by
    simp [List.contains]
    exact hm
  have hsafe : ∀ j, dictGet fields "intent" = some j →
      (∀ xs, j ≠ Json.arr xs) ∧ (∀ fs, j ≠ Json.obj fs) := by
    intro j hj
    rw [hi] at hj
    exact absurd hj (by simp)
  have htools : intent_tools (dictGet fields "intent") = [] :=
    intent_tools_empty _ (Or.inl hi)
  rw [handler_dispatch env req fields hm' hp hsafe]
  refine ⟨by rw [hi]; rfl, ?_, _, rfl⟩
  rw [htools]
  simp

/-- Witness for C8: a decoded object with no `intent` key at all. -/
theorem missing_intent_field_no_error_witness :
    (tool_map_lookup "ESM3" = some (some ToolName.esm3_tool)) ∧
    (tool_map_get (dictGet [("other", Json.str "x")] "intent") = none ∧
      Event.agentCall [] (agent_input sampleRequest) ∈
        (create_chat_completion (envRoute (some (Json.obj [("other", Json.str "x")]))) sampleRequest).trace ∧
      ∃ resp,
        (create_chat_completion (envRoute (some (Json.obj [("other", Json.str "x")]))) sampleRequest).result =
          Except.ok resp) :=
  ⟨by decide,
    missing_intent_field_no_error (envRoute (some (Json.obj [("other", Json.str "x")])))
      sampleRequest [("other", Json.str "x")] (by decide) rfl rfl⟩

/-- The aggregation loop, run from any accumulator, adds exactly the
reported counters of the `AIMessage` entries to each usage field. -/
theorem aggStep_foldl_usage (msgs : List AgentMessage) (st : AggState) :
    (msgs.foldl aggStep st).token_usage.total_tokens =
        st.token_usage.total_tokens +
          ((msgs.filter (fun m => m.isAIMessage)).map
            (reportedCount TokenUsage.total_tokens)).sum ∧
    (msgs.foldl aggStep st).token_usage.completion_tokens =
        st.token_usage.completion_tokens +
          ((msgs.filter (fun m => m.isAIMessage)).map
            (reportedCount TokenUsage.completion_tokens)).sum ∧
    (msgs.foldl aggStep st).token_usage.prompt_tokens =
        st.token_usage.prompt_tokens +
          ((msgs.filter (fun m => m.isAIMessage)).map
            (reportedCount TokenUsage.prompt_tokens)).sum := by
  induction msgs generalizing st with
  | nil => simp
  | cons m rest ih =>
    obtain ⟨ih1, ih2, ih3⟩ := ih (aggStep st m)
    cases hAI : m.isAIMessage with
    | false =>
      have hstep : aggStep st m = st := by simp [aggStep, hAI]
      rw [hstep] at ih1 ih2 ih3
      simp only [List.foldl_cons, hstep, List.filter_cons, hAI]
      exact ⟨ih1, ih2, ih3⟩
    | true =>
      simp only [List.foldl_cons, List.filter_cons, hAI, List.map_cons, List.sum_cons]
      refine ⟨?_, ?_, ?_⟩
      · rw [ih1]; simp [aggStep, hAI]; ring
      · rw [ih2]; simp [aggStep, hAI]; ring
      · rw [ih3]; simp [aggStep, hAI]; ring

/-- C7. For every run that reaches the Response Aggregator, each field
of the returned usage counters equals the sum of the corresponding
reported token count over every assistant-authored message of the
agent loop; in particular `usage.total_tokens` is the sum of all the
individual total counts. -/
theorem usage_fields_are_sums (now_ms now_s : Int) (model : String) (outcome : AgentOutcome) :
    (response_aggregate now_ms now_s model outcome).usage.total_tokens =
        ((outcome.messages.filter (fun m => m.isAIMessage)).map
          (reportedCount TokenUsage.total_tokens)).sum ∧
    (response_aggregate now_ms now_s model outcome).usage.completion_tokens =
        ((outcome.messages.filter (fun m => m.isAIMessage)).map
          (reportedCount TokenUsage.completion_tokens)).sum ∧
    (response_aggregate now_ms now_s model outcome).usage.prompt_tokens =
        ((outcome.messages.filter (fun m => m.isAIMessage)).map
          (reportedCount TokenUsage.prompt_tokens)).sum := by
  obtain ⟨h1, h2, h3⟩ :=
    aggStep_foldl_usage outcome.messages { result_content := [], token_usage := ⟨0, 0, 0⟩ }
  refine ⟨?_, ?_, ?_⟩
  · exact h1.trans (by simp)
  · exact h2.trans (by simp)
  · exact h3.trans (by simp)

/-- C1 counterexample. The claim predicts finish reason "length" for a
step-bound-terminated loop, but the aggregator hard-codes "stop": at
the concrete step-bound outcome the predicted list differs from the
actual one. -/
theorem finish_reason_claim_false :
    ¬ (∀ (now_ms now_s : Int) (model : String) (outcome : AgentOutcome),
        (response_aggregate now_ms now_s model outcome).choices.map
            (fun c => c.finish_reason) =
          [if outcome.hitStepBound then "length" else "stop"]) := by
  intro h
  have h0 := h 0 0 "S1-Base" stepBoundOutcome
  have h1 : (response_aggregate 0 0 "S1-Base" stepBoundOutcome).choices.map
      (fun c => c.finish_reason) = ["stop"] := rfl
  have h2 : stepBoundOutcome.hitStepBound = true := rfl
  rw [h1, h2, if_pos rfl] at h0
  simp at h0

/-- C1 as amended. The finish reason of the single choice is always
"stop" for every run that reaches the Response Aggregator, also when
the agent loop terminated by reaching its maximum step bound; no code
path produces "length". -/
theorem finish_reason_always_stop :
    (∀ (now_ms now_s : Int) (model : String) (outcome : AgentOutcome),
      (response_aggregate now_ms now_s model outcome).choices.map
          (fun c => c.finish_reason) = ["stop"]) ∧
    (∀ (env : Env) (req : ChatCompletionRequest) (resp : ChatCompletionResponse),
      (create_chat_completion env req).result = Except.ok resp →
      resp.choices.map (fun c => c.finish_reason) = ["stop"]) := by
  refine ⟨fun _ _ _ _ => rfl, ?_⟩
  intro env req resp h
  obtain ⟨outcome, rfl⟩ := handler_ok_inv env req resp h
  rfl

/-- Witness for C1 as amended, on a complete concrete run. -/
theorem finish_reason_always_stop_witness :
    (create_chat_completion (envRoute (some (Json.obj [("intent", Json.str "AlphaFold2")])))
        sampleRequest).result =
      Except.ok (response_aggregate 1 1 "S1-Base" sampleOutcome) ∧
    (response_aggregate 1 1 "S1-Base" sampleOutcome).choices.map
        (fun c => c.finish_reason) = ["stop"] :=
  ⟨rfl,
    finish_reason_always_stop.2
      (envRoute (some (Json.obj [("intent", Json.str "AlphaFold2")]))) sampleRequest
      (response_aggregate 1 1 "S1-Base" sampleOutcome) rfl⟩

/-- C9. The request fields `n` and `stream` are ignored: the handler
output does not depend on them, and every returned response is a
non-streamed chat completion with exactly one choice at index 0. -/
theorem n_stream_ignored :
    (∀ (env : Env) (req : ChatCompletionRequest) (n : Int) (stream : Bool),
      create_chat_completion env { req with n := n, stream := stream } =
        create_chat_completion env req) ∧
    (∀ (env : Env) (req : ChatCompletionRequest) (resp : ChatCompletionResponse),
      (create_chat_completion env req).result = Except.ok resp →
      resp.choices.map (fun c => c.index) = [0] ∧ resp.object = "chat.completion") := by
  refine ⟨fun _ _ _ _ => rfl, ?_⟩
  intro env req resp h
  obtain ⟨outcome, rfl⟩ := handler_ok_inv env req resp h
  exact ⟨rfl, rfl⟩

/-- Witness for C9 on a request with `n = 5` and `stream = true`. -/
theorem n_stream_ignored_witness :
    (create_chat_completion (envRoute (some (Json.obj [])))
        { sampleRequest with n := 5, stream := true }).result =
      Except.ok (response_aggregate 1 1 "S1-Base" sampleOutcome) ∧
    ((response_aggregate 1 1 "S1-Base" sampleOutcome).choices.map (fun c => c.index) = [0] ∧
      (response_aggregate 1 1 "S1-Base" sampleOutcome).object = "chat.completion") :=
  ⟨rfl,
    n_stream_ignored.2 (envRoute (some (Json.obj [])))
      { sampleRequest with n := 5, stream := true }
      (response_aggregate 1 1 "S1-Base" sampleOutcome) rfl⟩

/-- C10. The usage fold is total with explicit defaults: a non-
assistant entry contributes nothing at all, an assistant entry with no
`token_usage` metadata leaves every counter unchanged, and an assistant
entry missing one individual counter leaves that counter unchanged. -/
theorem usage_fold_missing_defaults :
    (∀ (st : AggState) (m : AgentMessage), m.isAIMessage = false → aggStep st m = st) ∧
    (∀ (st : AggState) (m : AgentMessage), m.isAIMessage = true → m.token_usage = none →
      (aggStep st m).token_usage = st.token_usage) ∧
    (∀ (st : AggState) (m : AgentMessage) (u : TokenUsage), m.token_usage = some u →
      (u.total_tokens = none →
        (aggStep st m).token_usage.total_tokens = st.token_usage.total_tokens) ∧
      (u.completion_tokens = none →
        (aggStep st m).token_usage.completion_tokens = st.token_usage.completion_tokens) ∧
      (u.prompt_tokens = none →
        (aggStep st m).token_usage.prompt_tokens = st.token_usage.prompt_tokens)) := by
  refine ⟨?_, ?_, ?_⟩
  · intro st m h
    simp [aggStep, h]
  · intro st m h hu
    simp [aggStep, h, reportedCount, hu]
  · intro st m u hm
    cases hAI : m.isAIMessage with
    | false =>
      have hstep : aggStep st m = st := by simp [aggStep, hAI]
      exact ⟨fun _ => by rw [hstep], fun _ => by rw [hstep], fun _ => by rw [hstep]⟩
    | true =>
      refine ⟨fun hu => ?_, fun hu => ?_, fun hu => ?_⟩ <;>
        simp [aggStep, hAI, reportedCount, hm, hu]

/-- Witness for C10 on a tool observation and a usage-free assistant
turn. -/
theorem usage_fold_missing_defaults_witness :
    (aggStep { result_content := [], token_usage := ⟨0, 0, 0⟩ }
        { isAIMessage := false, content := "observation" } =
      { result_content := [], token_usage := ⟨0, 0, 0⟩ }) ∧
    ((aggStep { result_content := [], token_usage := ⟨0, 0, 0⟩ }
        { isAIMessage := true, content := "answer" }).token_usage =
      ({ result_content := [], token_usage := ⟨0, 0, 0⟩ } : AggState).token_usage) :=
  ⟨usage_fold_missing_defaults.1 { result_content := [], token_usage := ⟨0, 0, 0⟩ }
      { isAIMessage := false, content := "observation" } rfl,
    usage_fold_missing_defaults.2.1 { result_content := [], token_usage := ⟨0, 0, 0⟩ }
      { isAIMessage := true, content := "answer" } rfl rfl⟩

/-- C5 counterexample. The claim requires that every adapter return a
failure value instead of raising; the evo2 DNA-generation adapter
raises a `ValueError` out of the call on a connection error. -/
theorem adapter_failure_claim_false :
    ¬ (∀ outcome : HttpOutcome, outcome.isFailure = true →
        raisesOut (dna_generate { sequence := "ACGT" } outcome) = false) := by
  intro h
  have h0 := h HttpOutcome.connectionError rfl
  exact absurd h0 (by decide)

/-- C5 as amended. For every network or backend failure (non-2xx
status, connection error, timeout), the AlphaFold2, ESM3, MatterGen,
spectrum and field adapters return an explicit failure value (`None`
or an error dictionary) without raising, while the evo2 adapter
raises a `ValueError` out of the call. -/
theorem adapters_failure_values (dargs : DnaGenerateArgs) (pargs : ProteinStructureArgs)
    (eargs : Esm3Args) (batch_size num_batches : Int) (props : Option Json) (query : String)
    (matrix_url : String) (velocity wind : List (String × Rat)) (b64 : String) (rows : Nat)
    (outcome : HttpOutcome) (hfail : outcome.isFailure = true) :
    predict_protein_structure pargs outcome = Except.ok none ∧
    execute eargs outcome = Except.ok none ∧
    (∃ msg, matter_gen_function batch_size num_batches props outcome =
      Except.ok (errorObj msg)) ∧
    (∃ msg, spectrum_predict query outcome = Except.ok (errorObj msg)) ∧
    (∃ msg, mechanics_calculate matrix_url velocity wind (GeometryResult.encoded b64 rows)
        outcome = Except.ok (errorObj msg)) ∧
    (∃ e, dna_generate dargs outcome = Except.error e) := by
  cases outcome with
  | success body => exact absurd hfail (by simp [HttpOutcome.isFailure])
  | statusError code => exact ⟨rfl, rfl, ⟨_, rfl⟩, ⟨_, rfl⟩, ⟨_, rfl⟩, ⟨_, rfl⟩⟩
  | connectionError => exact ⟨rfl, rfl, ⟨_, rfl⟩, ⟨_, rfl⟩, ⟨_, rfl⟩, ⟨_, rfl⟩⟩
  | timedOut => exact ⟨rfl, rfl, ⟨_, rfl⟩, ⟨_, rfl⟩, ⟨_, rfl⟩, ⟨_, rfl⟩⟩

/-- Witness for C5 as amended: all six adapters on a timed-out call
with concrete arguments. -/
theorem adapters_failure_values_witness :
    HttpOutcome.timedOut.isFailure = true ∧
    (predict_protein_structure
        { sequences := ["MKV"], algorithm := "mmseqs2", skip_template_search := true,
          bit_score := 100, databases := ["uniref90"], e_value := 1 / 10000, iterations := 1,
          num_predictions_per_model := 1, relax_prediction := false }
        HttpOutcome.timedOut = Except.ok none ∧
      execute { sequence := "QATS" } HttpOutcome.timedOut = Except.ok none ∧
      (∃ msg, matter_gen_function 16 1 none HttpOutcome.timedOut = Except.ok (errorObj msg)) ∧
      (∃ msg, spectrum_predict "predict the compound" HttpOutcome.timedOut =
        Except.ok (errorObj msg)) ∧
      (∃ msg, mechanics_calculate "http://u" [("x", 75)] [("y", 0)]
          (GeometryResult.encoded "QUJD" 3) HttpOutcome.timedOut = Except.ok (errorObj msg)) ∧
      (∃ e, dna_generate { sequence := "ACGT" } HttpOutcome.timedOut = Except.error e)) :=
  ⟨rfl,
    adapters_failure_values { sequence := "ACGT" }
      { sequences := ["MKV"], algorithm := "mmseqs2", skip_template_search := true,
        bit_score := 100, databases := ["uniref90"], e_value := 1 / 10000, iterations := 1,
        num_predictions_per_model := 1, relax_prediction := false }
      { sequence := "QATS" } 16 1 none "predict the compound" "http://u" [("x", 75)]
      [("y", 0)] "QUJD" 3 HttpOutcome.timedOut rfl⟩

/-- C6 counterexample. The claim requires the outbound call of every
adapter to pass an explicit multi-minute (at least 120 seconds) timeout; the
evo2 call passes none at all. -/
theorem adapter_timeout_claim_false :
    ¬ (∀ p ∈ adapter_request_timeouts, ∃ t, p.2 = some t ∧ 120 ≤ t) := by
  intro h
  obtain ⟨t, ht, _⟩ := h ("dna_generate", evo2_request_timeout) (by decide)
  simp [evo2_request_timeout] at ht

/-- C6 as amended. The AlphaFold2 and ESM3 adapters pass an explicit
300-second timeout and the field adapter a 6000-second one — and those
three resolve a timed-out call to a failure value — while the evo2,
MatterGen and spectrum adapters pass no timeout at all, so their calls
are not bounded by an explicit timeout. -/
theorem adapter_timeouts_facts :
    evo2_request_timeout = none ∧
    alphafold2_request_timeout = some 300 ∧
    esm3_request_timeout = some 300 ∧
    mattergen_request_timeout = none ∧
    spectrum_request_timeout = none ∧
    field_request_timeout = some 6000 ∧
    (∀ pargs : ProteinStructureArgs,
      predict_protein_structure pargs HttpOutcome.timedOut = Except.ok none) ∧
    (∀ eargs : Esm3Args, execute eargs HttpOutcome.timedOut = Except.ok none) ∧
    (∀ (u : String) (v w : List (String × Rat)) (b64 : String) (rows : Nat),
      mechanics_calculate u v w (GeometryResult.encoded b64 rows) HttpOutcome.timedOut =
        Except.ok (errorObj "An error occurred: timed out")) :=
  ⟨rfl, rfl, rfl, rfl, rfl, rfl, fun _ => rfl, fun _ => rfl, fun _ _ _ _ _ => rfl⟩

end S1Base
